import Mathlib

/-!
# nanoweb: error capture and the default diagnostic page

A shallow embedding of `src/error.go` (with the `Context` record of
`src/context.go`) and proofs of properties of `NewError`, `generateStack`,
`Error.Error`, `Error.StackTraceString`, `defaultErrorHandler` and the page
described by `errorTemplate`.

Go strings are modelled as `String`, Go `int` as `Int` (with the 64-bit
wrap-around where the program computes with it).  A call that panics returns
`Except.error`.  What the program obtains from the Go standard library
(`runtime`, `reflect`, `fmt`, `net/http`, `net/http/httputil`,
`html/template`) is modelled after the documented behaviour of those
packages, or taken as a parameter.
-/

set_option linter.dupNamespace false

namespace Nanoweb

/-! ## Data model -/

/-- One stack location, the Go `Frame` struct.  A `*Frame` held in a slice is
modelled by the frame it points to (the pointers are never nil where the
program builds them). -/
structure Frame where
  Number : String
  File : String
  Method : String
deriving DecidableEq, Repr

/-- A non-nil value of interface type `error` whose dynamic type is not the
struct type `Error`: `typeName` is what `reflect.TypeOf(v).String()` returns
for it and `message` is what its `Error()` method returns. -/
structure ErrorValue where
  typeName : String
  message : String
deriving DecidableEq, Repr

mutual
/-- A value held in an `interface{}`, classified the way the type switch of
`NewError` classifies it. -/
inductive GoValue where
  /-- the nil interface value -/
  | nil
  /-- a Go `string` -/
  | str (s : String)
  /-- a value whose dynamic type is the struct type `Error` -/
  | ofError (e : Error)
  /-- a value of any other dynamic type that implements `error` -/
  | failure (t : ErrorValue)
  /-- a value of any other dynamic type, not implementing `error`:
  `typeName` is `reflect.TypeOf(v).String()`, `formatted` is what the verb
  `%v` of package `fmt` prints for it -/
  | other (typeName : String) (formatted : String)
/-- The Go `Error` struct. -/
inductive Error where
  | mk (err : GoValue) (Message : String) (Class : String) (Stack : List Frame)
end

/-- Field `err` of an `Error`. -/
def Error.err : Error → GoValue
  | .mk err _ _ _ => err

/-- Field `Message` of an `Error`. -/
def Error.Message : Error → String
  | .mk _ m _ _ => m

/-- Field `Class` of an `Error`. -/
def Error.Class : Error → String
  | .mk _ _ c _ => c

/-- Field `Stack` of an `Error`. -/
def Error.Stack : Error → List Frame
  | .mk _ _ _ s => s

/-- `func (e Error) Error() string`. -/
def Error.Error (e : Nanoweb.Error) : String :=
  e.Message

/-- One step of the loop of `StackTraceString`:
`fmt.Fprintf(buf, "%s: %s\n\t%s\n", v.File, v.Number, v.Method)`. -/
def fprintFrame (buf : String) (v : Frame) : String :=
  buf ++ (v.File ++ ": " ++ v.Number ++ "\n\t" ++ v.Method ++ "\n")

/-- `func (e Error) StackTraceString() string`: a fresh buffer, one
`Fprintf` per frame of `e.Stack` in slice order, then the buffer's text. -/
def Error.StackTraceString (e : Nanoweb.Error) : String :=
  e.Stack.foldl fprintFrame ""

/-! ## Go runtime and library values used by `NewError` -/

/-- `reflect.TypeOf(v).String()`; `none` for the nil interface, which has no
dynamic type. -/
def GoValue.typeString : GoValue → Option String
  | .nil => none
  | .str _ => some "string"
  | .ofError _ => some "nanoweb.Error"
  | .failure t => some t.typeName
  | .other t _ => some t

/-- What `fmt` prints for a value under the verb `%v`: a string as itself,
the nil interface as `<nil>`, a value implementing `error` through its
`Error()` method. -/
def GoValue.formatV : GoValue → String
  | .nil => "<nil>"
  | .str s => s
  | .ofError e => e.Message
  | .failure t => t.message
  | .other _ f => f

/-- `fmt.Errorf("%v", t)`: without a `%w` verb `fmt.Errorf` returns
`errors.New` of the formatted text, a `*errors.errorString`. -/
def fmtErrorfV (t : GoValue) : ErrorValue :=
  { typeName := "*errors.errorString", message := t.formatV }

/-- A function descriptor, as returned by `runtime.FuncForPC`. -/
structure Func where
  Name : String
  FileLine : Nat → String × Int

/-- The state of the Go runtime a stack capture reads: the program counters
of the active call stack, innermost first (entry 0 belongs to
`runtime.Callers` itself), and the symbol table behind
`runtime.FuncForPC`. -/
structure Runtime where
  callStack : List Nat
  FuncForPC : Nat → Option Func

/-- `runtime.Callers(skip, pc)`: fills `pc` with the program counters of the
call stack after the first `skip` entries (none are skipped when `skip` is
negative), as many as fit, and returns the number written (the updated slice
is returned with it). -/
def Runtime.Callers (rt : Runtime) (skip : Int) (pc : List Nat) : List Nat × Nat :=
  let written := (rt.callStack.drop skip.toNat).take pc.length
  (written ++ pc.drop written.length, written.length)

/-- `strconv.Itoa`. -/
def Itoa (n : Int) : String :=
  toString n

/-- The constant `maxFrames`. -/
def maxFrames : Nat := 20

/-- Body of the loop of `generateStack` for one program counter. -/
def appendFrame (rt : Runtime) (frames : List Frame) (pc : Nat) : List Frame :=
  match rt.FuncForPC pc with
  | none => frames
  | some f =>
    let (file, line) := f.FileLine pc
    let frame : Frame := { File := file, Number := Itoa line, Method := f.Name }
    frames ++ [frame]

/-- The value of a Go `int` expression whose mathematical value is `n`: Go's
`int` is taken to be 64 bits wide, and arithmetic wraps around in two's
complement. -/
def wrapInt (n : Int) : Int :=
  (n + 2 ^ 63) % 2 ^ 64 - 2 ^ 63

/-- `func generateStack(offset int) (frames []*Frame)`. -/
def generateStack (rt : Runtime) (offset : Int) : List Frame :=
  let stack := List.replicate maxFrames 0
  let (stack, length) := rt.Callers (wrapInt (2 + offset)) stack
  (stack.take length).foldl (appendFrame rt) []

/-- The composite literal `Error{err: err, Message: err.Error(),
Class: reflect.TypeOf(err).String(), Stack: generateStack(3)}` that ends
`NewError`. -/
def errorOf (rt : Runtime) (err : ErrorValue) : Error :=
  .mk (.failure err) err.message err.typeName (generateStack rt 3)

/-- `func NewError(msg interface{}) Error`, with `rt` the runtime state at
the call.  The type switch has a case `Error` (return `t`), a case `error`
(`err = t`) and a default (`err = fmt.Errorf("%v", t)`). -/
def NewError (rt : Runtime) (msg : GoValue) : Error :=
  match msg with
  | .ofError t => t
  | .failure t => errorOf rt t
  | t => errorOf rt (fmtErrorfV t)

/-! ## The diagnostic page `errorTemplate`

The text nodes of the template, in order, cut at its actions. -/

/-- Text of `errorTemplate` up to the first action, inside `<title>`. -/
def tplHead : String :=
  "<!DOCTYPE HTML><html><head>\n" ++
  "<meta http-equiv=\"content-type\" content=\"text/html; charset=utf-8\">\n" ++
  "<title>Error: "

/-- Text of `errorTemplate` from `</title>` through the style sheet to the
heading `<h1>Error: `. -/
def tplStyle : String :=
  "</title>\n" ++
  "<style type=\"text/css\" media=\"screen\">\n" ++
  "html,body\x7b\n" ++
  "padding:0;\n" ++
  "margin:0;\n" ++
  "font-family: Tahoma;\n" ++
  "color: #34495e;\n" ++
  "\x7d\n" ++
  "h1 \x7b\n" ++
  "color: #fff;\n" ++
  "margin: 0;\n" ++
  "\x7d\n" ++
  ".container \x7b\n" ++
  "max-width: 1220px;\n" ++
  "margin: 0 auto;\n" ++
  "padding: 0 20px;\n" ++
  "\x7d\n" ++
  "#header \x7b\n" ++
  "display: block;\n" ++
  "background-color: #121f28;\n" ++
  "height: 120px;\n" ++
  "width: 100%;\n" ++
  "\x7d\n" ++
  "#title \x7b\n" ++
  "padding: 40px 0;\n" ++
  "\x7d\n" ++
  ".error \x7b\n" ++
  "color: #c0392b;\n" ++
  "\x7d\n" ++
  "pre code \x7b\n" ++
  "font-family: \"Lucida Console\", Monaco, monospace;\n" ++
  "\x7d\n" ++
  "pre.request-dump \x7b\n" ++
  "background-color: #eeeeee;\n" ++
  "padding: 20px 20px 0 20px;\n" ++
  "overflow: auto;\n" ++
  "\x7d\n" ++
  "#backtrace \x7b\n" ++
  "list-style: none;\n" ++
  "padding-left: 0;\n" ++
  "font-family: \"Lucida Console\", Monaco, monospace;\n" ++
  "\x7d\n" ++
  "#backtrace li \x7b\n" ++
  "border-left: 5px solid #61A8DC;\n" ++
  "padding-left: 20px;\n" ++
  "\x7d\n" ++
  "#backtrace .file \x7b\n" ++
  "color: #93c3e5;\n" ++
  "\x7d\n" ++
  "#backtrace .lineno \x7b\n" ++
  "color: #5e380b;\n" ++
  "\x7d\n" ++
  "#backtrace .method \x7b\n" ++
  "color: #00ff44;\n" ++
  "\x7d\n" ++
  "\n" ++
  "</style>\n" ++
  "<body>\n" ++
  "  <div id=\"header\">\n" ++
  "\t<div class=\"container\">\n" ++
  "\t  <div id=\"title\">\n" ++
  "\t\t<h1>Error: "

/-- Text of `errorTemplate` from `</h1>` to the opening of the message block. -/
def tplBody : String :=
  "</h1>\n" ++
  "\t  </div>\n" ++
  "\t</div>\n" ++
  "  </div>\n" ++
  "  <div class=\"container\">\n" ++
  "\t<p>Sorry, the requested URL  caused an error: </p>\n" ++
  "\t<pre><code>"

/-- Text of `errorTemplate` between the message and the request dump. -/
def tplRequest : String :=
  "</code></pre>\n" ++
  "\t<h2>HTTP Request</h2>\n" ++
  "\t<pre class=\"request-dump\">"

/-- Text of `errorTemplate` between the request dump and `{{ if .StackTrace }}`. -/
def tplAfterRequest : String :=
  "</pre>\n" ++
  "\t"

/-- Text of `errorTemplate` at the start of the body of `{{ if .StackTrace }}`,
up to `{{ range .StackTrace }}`. -/
def tplTraceOpen : String :=
  "\n" ++
  "\t<h2>Traceback</h2>\n" ++
  "\t<ul id=\"backtrace\">\n" ++
  "\t  "

/-- Text of `errorTemplate` at the start of the body of
`{{ range .StackTrace }}`, up to `{{ .File }}`. -/
def tplItemFile : String :=
  "\n" ++
  "\t  <li><p><span class=\"file\">"

/-- Text of `errorTemplate` between `{{ .File }}` and `{{ .Number }}`. -/
def tplItemNumber : String :=
  ":</span><span class=\"lineno\">"

/-- Text of `errorTemplate` between `{{ .Number }}` and `{{ .Method }}`. -/
def tplItemMethod : String :=
  "</span> <span class=\"method\">"

/-- Text of `errorTemplate` after `{{ .Method }}`, to the `{{ end }}` of the range. -/
def tplItemEnd : String :=
  "</span></p></li>\n" ++
  "\t  "

/-- Text of `errorTemplate` between the `{{ end }}` of the range and the
`{{ end }}` of the if. -/
def tplTraceClose : String :=
  "\n" ++
  "\t</ul>\n" ++
  "\t"

/-- Text of `errorTemplate` after the last `{{ end }}`. -/
def tplFoot : String :=
  "\n" ++
  "  </div>\n" ++
  "\n" ++
  "</body>\n" ++
  "</html>"

/-- The constant `errorTemplate`: its text nodes with its actions between them. -/
def errorTemplate : String :=
  tplHead ++ "\x7b\x7b .Code \x7d\x7d" ++ " " ++ "\x7b\x7b .Title \x7d\x7d" ++
  tplStyle ++ "\x7b\x7b .Code \x7d\x7d" ++ " " ++ "\x7b\x7b .Title \x7d\x7d" ++
  tplBody ++ "\x7b\x7b .Message \x7d\x7d" ++
  tplRequest ++ "\x7b\x7b .HTTPRequest \x7d\x7d" ++
  tplAfterRequest ++ "\x7b\x7b if .StackTrace \x7d\x7d" ++
  tplTraceOpen ++ "\x7b\x7b range .StackTrace \x7d\x7d" ++
  tplItemFile ++ "\x7b\x7b .File \x7d\x7d" ++
  tplItemNumber ++ "\x7b\x7b .Number \x7d\x7d" ++
  tplItemMethod ++ "\x7b\x7b .Method \x7d\x7d" ++
  tplItemEnd ++ "\x7b\x7b end \x7d\x7d" ++
  tplTraceClose ++ "\x7b\x7b end \x7d\x7d" ++
  tplFoot

/-! ## Render data and the standard library behind the handler -/

/-- A value stored in the render data, a `map[string]interface{}`: a Go
`int`, a Go `string`, a `template.HTML` (text that `html/template` trusts to
be HTML) and a `[]*Frame`. -/
inductive RenderValue where
  | int (n : Int)
  | str (s : String)
  | html (s : String)
  | frames (fs : List Frame)
deriving DecidableEq, Repr

/-- A value of type `map[string]interface{}`: the nil map, or an allocated
map, given by its lookup (`entries k = none` when `k` is not a key). -/
inductive RenderData where
  | nil
  | alloc (entries : String → Option RenderValue)

/-- `make(map[string]interface{})`. -/
def RenderData.make : RenderData :=
  .alloc fun _ => none

/-- A map literal `map[string]interface{}{k1: v1, ...}`; of two entries with
one key the first counts. -/
def RenderData.ofList (l : List (String × RenderValue)) : RenderData :=
  .alloc fun key => l.lookup key

/-- The read `v, ok := m[k]`: `none` when `ok` is false.  A nil map reads as
an empty one. -/
def RenderData.get (m : RenderData) (k : String) : Option RenderValue :=
  match m with
  | .nil => none
  | .alloc entries => entries k

/-- The assignment `m[k] = v`, which panics on a nil map. -/
def RenderData.set (m : RenderData) (k : String) (v : RenderValue) :
    Except String RenderData :=
  match m with
  | .nil => .error "panic: assignment to entry in nil map"
  | .alloc entries => .ok (.alloc fun key => if key = k then some v else entries key)

/-- `http.StatusText`: the reason phrase of a status code, the empty string
for a code that has none. -/
def StatusText (code : Int) : String :=
  match code with
  | 100 => "Continue"
  | 101 => "Switching Protocols"
  | 102 => "Processing"
  | 103 => "Early Hints"
  | 200 => "OK"
  | 201 => "Created"
  | 202 => "Accepted"
  | 203 => "Non-Authoritative Information"
  | 204 => "No Content"
  | 205 => "Reset Content"
  | 206 => "Partial Content"
  | 207 => "Multi-Status"
  | 208 => "Already Reported"
  | 226 => "IM Used"
  | 300 => "Multiple Choices"
  | 301 => "Moved Permanently"
  | 302 => "Found"
  | 303 => "See Other"
  | 304 => "Not Modified"
  | 305 => "Use Proxy"
  | 307 => "Temporary Redirect"
  | 308 => "Permanent Redirect"
  | 400 => "Bad Request"
  | 401 => "Unauthorized"
  | 402 => "Payment Required"
  | 403 => "Forbidden"
  | 404 => "Not Found"
  | 405 => "Method Not Allowed"
  | 406 => "Not Acceptable"
  | 407 => "Proxy Authentication Required"
  | 408 => "Request Timeout"
  | 409 => "Conflict"
  | 410 => "Gone"
  | 411 => "Length Required"
  | 412 => "Precondition Failed"
  | 413 => "Request Entity Too Large"
  | 414 => "Request URI Too Long"
  | 415 => "Unsupported Media Type"
  | 416 => "Requested Range Not Satisfiable"
  | 417 => "Expectation Failed"
  | 418 => "I\x27m a teapot"
  | 421 => "Misdirected Request"
  | 422 => "Unprocessable Entity"
  | 423 => "Locked"
  | 424 => "Failed Dependency"
  | 425 => "Too Early"
  | 426 => "Upgrade Required"
  | 428 => "Precondition Required"
  | 429 => "Too Many Requests"
  | 431 => "Request Header Fields Too Large"
  | 451 => "Unavailable For Legal Reasons"
  | 500 => "Internal Server Error"
  | 501 => "Not Implemented"
  | 502 => "Bad Gateway"
  | 503 => "Service Unavailable"
  | 504 => "Gateway Timeout"
  | 505 => "HTTP Version Not Supported"
  | 506 => "Variant Also Negotiates"
  | 507 => "Insufficient Storage"
  | 508 => "Loop Detected"
  | 510 => "Not Extended"
  | 511 => "Network Authentication Required"
  | _ => ""

/-- The inbound `*http.Request`, an opaque carrier: `raw` stands for
whatever the host HTTP stack put in it. -/
structure Request where
  raw : String
deriving DecidableEq, Repr

/-- Behaviour of the standard library that depends on state outside this
model.  `DumpRequest req body` is `httputil.DumpRequest`: the bytes it
returns (as text) and its error, if any.  `pointerText fs` is what package
`fmt` prints for a `[]*Frame`, a list of addresses. -/
structure Host where
  DumpRequest : Request → Bool → String × Option String
  pointerText : List Frame → String

/-- How `html/template` classes the text of a value: plain text, or text of
type `template.HTML`. -/
inductive ContentType where
  | plain
  | html
deriving DecidableEq, Repr

/-- The table `htmlReplacementTable` of `html/template`: the replacement for
one character of plain text. -/
def htmlReplacement (c : Char) : List Char :=
  if c = Char.ofNat 0 then [Char.ofNat 0xFFFD]
  else if c = Char.ofNat 34 then "&#34;".toList
  else if c = Char.ofNat 38 then "&amp;".toList
  else if c = Char.ofNat 39 then "&#39;".toList
  else if c = Char.ofNat 43 then "&#43;".toList
  else if c = Char.ofNat 60 then "&lt;".toList
  else if c = Char.ofNat 62 then "&gt;".toList
  else [c]

/-- The table `htmlNormReplacementTable` of `html/template`: as
`htmlReplacementTable`, but `&` stays. -/
def htmlNormReplacement (c : Char) : List Char :=
  if c = Char.ofNat 0 then [Char.ofNat 0xFFFD]
  else if c = Char.ofNat 34 then "&#34;".toList
  else if c = Char.ofNat 39 then "&#39;".toList
  else if c = Char.ofNat 43 then "&#43;".toList
  else if c = Char.ofNat 60 then "&lt;".toList
  else if c = Char.ofNat 62 then "&gt;".toList
  else [c]

/-- `htmlReplacer` of `html/template`: every character replaced after the
table. -/
def htmlReplacer (table : Char → List Char) (s : String) : String :=
  String.mk (s.toList.flatMap table)

/-- `stringify` of `html/template`: the text of the value of a field action
`{{ .Key }}` and its content type.  A missing key gives no text, an `int`
prints in decimal, a string as itself. -/
def stringify (host : Host) : Option RenderValue → String × ContentType
  | none => ("", .plain)
  | some (.int n) => (toString n, .plain)
  | some (.str s) => (s, .plain)
  | some (.html s) => (s, .html)
  | some (.frames fs) => (host.pointerText fs, .plain)

/-- The escaper `html/template` appends to an action in element text: text
of type `template.HTML` is written as it is, other text is escaped. -/
def htmlEscaper (arg : String × ContentType) : String :=
  if arg.2 = ContentType.html then arg.1
  else htmlReplacer htmlReplacement arg.1

/-- The escaper `html/template` appends to an action in the text of
`<title>`. -/
def rcdataEscaper (arg : String × ContentType) : String :=
  if arg.2 = ContentType.html then htmlReplacer htmlNormReplacement arg.1
  else htmlReplacer htmlReplacement arg.1

/-- Truth of the pipeline of `{{ if .Key }}` in `text/template`: a missing
key, zero, the empty string and the empty slice are false. -/
def isTrue : Option RenderValue → Bool
  | none => false
  | some (.int n) => n != 0
  | some (.str s) => s != ""
  | some (.html s) => s != ""
  | some (.frames fs) => !fs.isEmpty

/-- One pass through the body of `{{ range .StackTrace }}`, with the dot set
to frame `f`, writing to `wr`; the fields of a frame are Go strings. -/
def executeRangeBody (wr : String) (f : Frame) : String :=
  wr ++ tplItemFile ++ htmlEscaper (f.File, .plain) ++ tplItemNumber ++
    htmlEscaper (f.Number, .plain) ++ tplItemMethod ++ htmlEscaper (f.Method, .plain) ++
    tplItemEnd

/-- Execution of the parsed `errorTemplate` on `data`, writing to `wr`:
the text written and the error that stopped the execution, if any.  Each
text node and each escaped value is written as it is reached; the first two
actions stand in `<title>`, the others in element text.  Ranging over a
value that is not a sequence (here an `int` or a string) is an execution
error, and what was written before it stays written. -/
def executeErrorTemplate (host : Host) (wr : String) (data : RenderData) :
    String × Option String :=
  let wr := wr ++ tplHead
  let wr := wr ++ rcdataEscaper (stringify host (data.get "Code"))
  let wr := wr ++ " "
  let wr := wr ++ rcdataEscaper (stringify host (data.get "Title"))
  let wr := wr ++ tplStyle
  let wr := wr ++ htmlEscaper (stringify host (data.get "Code"))
  let wr := wr ++ " "
  let wr := wr ++ htmlEscaper (stringify host (data.get "Title"))
  let wr := wr ++ tplBody
  let wr := wr ++ htmlEscaper (stringify host (data.get "Message"))
  let wr := wr ++ tplRequest
  let wr := wr ++ htmlEscaper (stringify host (data.get "HTTPRequest"))
  let wr := wr ++ tplAfterRequest
  if isTrue (data.get "StackTrace") then
    let wr := wr ++ tplTraceOpen
    match data.get "StackTrace" with
    | some (.frames fs) =>
      let wr := fs.foldl executeRangeBody wr
      let wr := wr ++ tplTraceClose
      (wr ++ tplFoot, none)
    | _ => (wr, some "range can\x27t iterate over the value of .StackTrace")
  else
    (wr ++ tplFoot, none)

/-- The package variable `tmpl`, an `*html/template.Template`: whether it
holds a parse tree, and whether it has been executed (escaped). -/
structure Template where
  hasTree : Bool
  escaped : Bool
deriving DecidableEq, Repr

/-- `template.New("error")`, the initial value of `tmpl`. -/
def Template.New : Template :=
  { hasTree := false, escaped := false }

/-- `tmpl.Parse(text)`, for the one text the program passes, the well-formed
constant `errorTemplate`: the call is refused once the template has been
executed ("cannot Parse after Execute"), and the template then keeps the
tree it has. -/
def Template.Parse (t : Template) (_text : String) : Template × Option String :=
  if t.escaped then (t, some "html/template: cannot Parse after Execute")
  else ({ t with hasTree := true }, none)

/-- `tmpl.Execute(&buf, data)`, the only text ever parsed into `tmpl` being
`errorTemplate`: the template, the buffer and the returned error. -/
def Template.Execute (host : Host) (t : Template) (buf : String) (data : RenderData) :
    Template × String × Option String :=
  let t1 := { t with escaped := true }
  if t.hasTree then
    let (buf, err) := executeErrorTemplate host buf data
    (t1, buf, err)
  else
    (t1, buf, some "template: \"error\" is an incomplete or empty template")

/-! ## Context and the default handler -/

/-- The `Context` struct, with the fields `defaultErrorHandler` and `Send`
touch; `Response` is the text written to the response sink so far. -/
structure Context where
  Request : Request
  Response : String
  statusCode : Int
  IsSent : Bool
deriving DecidableEq, Repr

/-- Modelled from the spec: the method `Context.Send` is not among the source
files.  It writes `content` to the response sink and sets `IsSent`; when
`IsSent` is already true it does not write again. -/
def Context.Send (ctx : Context) (content : String) : Context :=
  if ctx.IsSent then ctx
  else { ctx with Response := ctx.Response ++ content, IsSent := true }

/-- What a call of `defaultErrorHandler` that returns leaves behind: the
render data it built, the package variable `tmpl`, the two errors it
discards, the buffer it rendered into and the context after
`ctx.Send(&buf)`. -/
structure HandlerRun where
  renderData : RenderData
  tmpl : Template
  parseErr : Option String
  executeErr : Option String
  buf : String
  ctx : Context

/-- `func defaultErrorHandler(ctx *Context, data ...map[string]interface{})`,
with `tmpl` the value of the package variable at the call.  The result is
`Except.error` when the call panics. -/
def defaultErrorHandler (host : Host) (tmpl : Template) (ctx : Context)
    (data : List RenderData) : Except String HandlerRun := do
  let renderData ←
    match data with
    | [] => do
      let renderData := RenderData.make
      let renderData ← renderData.set "Code" (.int ctx.statusCode)
      let renderData ← renderData.set "Title" (.str (StatusText ctx.statusCode))
      renderData.set "Message" (.str (StatusText ctx.statusCode))
    | d :: _ => pure d
  let renderData ←
    if (renderData.get "Code").isSome then pure renderData
    else renderData.set "Code" (.int ctx.statusCode)
  let renderData ←
    if (renderData.get "Title").isSome then pure renderData
    else renderData.set "Title" (.str (StatusText ctx.statusCode))
  let renderData ←
    if (renderData.get "Message").isSome then pure renderData
    else renderData.set "Message" (.str (StatusText ctx.statusCode))
  let (httpRequest, _) := host.DumpRequest ctx.Request true
  let renderData ← renderData.set "HTTPRequest" (.str httpRequest)
  let buf := ""
  let (tmpl, parseErr) := tmpl.Parse errorTemplate
  let (tmpl, buf, executeErr) := tmpl.Execute host buf renderData
  pure { renderData := renderData, tmpl := tmpl, parseErr := parseErr,
         executeErr := executeErr, buf := buf, ctx := ctx.Send buf }

/-! ## Sample inputs and definitions used to state the properties -/

/-- A function descriptor for the sample runtime: every program counter of
function `main.f` lies in `main.go`, at the line of the same number. -/
def sampleFunc : Func :=
  { Name := "main.f", FileLine := fun pc => ("main.go", Int.ofNat pc) }

/-- A runtime whose call stack is thirty frames deep, every frame
resolvable. -/
def sampleRuntime : Runtime :=
  { callStack := List.range 30, FuncForPC := fun _ => some sampleFunc }

/-- The frame `generateStack` builds for a program counter, when the counter
resolves to a function. -/
def frameAt (rt : Runtime) (pc : Nat) : Option Frame :=
  (rt.FuncForPC pc).map fun f =>
    { File := (f.FileLine pc).1, Number := Itoa (f.FileLine pc).2, Method := f.Name }

/-- The text of one frame in a stack trace, as the spec words it:
`"<file>: <line>\n\t<method>\n"`. -/
def frameText (f : Frame) : String :=
  f.File ++ ": " ++ f.Number ++ "\n\t" ++ f.Method ++ "\n"

/-- A host whose request dump succeeds with the raw request text. -/
def sampleHost : Host :=
  { DumpRequest := fun req _ => (req.raw, none), pointerText := fun _ => "[]" }

/-- A host whose request dump fails, returning no bytes. -/
def failingDumpHost : Host :=
  { DumpRequest := fun _ _ => ("", some "unexpected EOF"), pointerText := fun _ => "[]" }

/-- A context with nothing sent yet. -/
def sampleContext (code : Int) : Context :=
  { Request := { raw := "GET /x HTTP/1.1\r\nHost: a\r\n\r\n" }, Response := "",
    statusCode := code, IsSent := false }

/-- The template state after a first run of the handler from the initial
value of `tmpl`. -/
def tmplAfterFirstRun : Template :=
  match defaultErrorHandler sampleHost Template.New (sampleContext 404) [] with
  | .ok run => run.tmpl
  | .error _ => Template.New

/-- Render data whose `StackTrace` is a string, a value `range` cannot
iterate over. -/
def badTraceData : RenderData :=
  RenderData.ofList [("StackTrace", RenderValue.str "oops")]

/-- Render data without `StackTrace` whose `Message` is a `template.HTML`
that holds the markup of a backtrace section. -/
def markupMessageData : RenderData :=
  RenderData.ofList
    [("Message", RenderValue.html "<h2>Traceback</h2><ul id=\"backtrace\"></ul>")]

/-- Whether the value read under a key is a `template.HTML`. -/
def typedHTML : Option RenderValue → Bool
  | some (.html _) => true
  | _ => false

/-- The entries of the render data as the handler is meant to leave them,
for explicit entries `m`: the values `m` has under `Code`, `Title` and
`Message` kept, those it lacks filled from the status code, and
`HTTPRequest` bound to the text of the request dump. -/
def filledEntries (host : Host) (ctx : Context) (m : String → Option RenderValue) :
    String → Option RenderValue :=
  fun key =>
    if key = "HTTPRequest" then some (.str (host.DumpRequest ctx.Request true).1)
    else if key = "Code" then some ((m "Code").getD (.int ctx.statusCode))
    else if key = "Title" then some ((m "Title").getD (.str (StatusText ctx.statusCode)))
    else if key = "Message" then some ((m "Message").getD (.str (StatusText ctx.statusCode)))
    else m key

/-- The last four statements of `defaultErrorHandler` on render data `rd`:
parse, execute into a fresh buffer, send. -/
def renderAndSend (host : Host) (tmpl : Template) (ctx : Context) (rd : RenderData) :
    HandlerRun :=
  { renderData := rd,
    tmpl := ((tmpl.Parse errorTemplate).1.Execute host "" rd).1,
    parseErr := (tmpl.Parse errorTemplate).2,
    executeErr := ((tmpl.Parse errorTemplate).1.Execute host "" rd).2.2,
    buf := ((tmpl.Parse errorTemplate).1.Execute host "" rd).2.1,
    ctx := ctx.Send ((tmpl.Parse errorTemplate).1.Execute host "" rd).2.1 }

/-- A character list `l` is clean for a text `n` when `n` does not occur in
`l` and `l` does not end in a non-empty beginning of `n`. -/
def Clean (n l : List Char) : Prop :=
  ¬ n <:+: l ∧ ∀ p ∈ n.inits, p ≠ [] → ¬ p <:+ l

instance (n l : List Char) : Decidable (Clean n l) := by
  unfold Clean
  infer_instance

/-- The page up to the place of the backtrace section: title, style sheet,
heading, message and request dump. -/
def pageStart (host : Host) (d : RenderData) : String :=
  tplHead ++ rcdataEscaper (stringify host (d.get "Code")) ++ " " ++
    rcdataEscaper (stringify host (d.get "Title")) ++ tplStyle ++
    htmlEscaper (stringify host (d.get "Code")) ++ " " ++
    htmlEscaper (stringify host (d.get "Title")) ++ tplBody ++
    htmlEscaper (stringify host (d.get "Message")) ++ tplRequest ++
    htmlEscaper (stringify host (d.get "HTTPRequest")) ++ tplAfterRequest

/-- The list entry of one frame in the backtrace section. -/
def frameItem (f : Frame) : String :=
  tplItemFile ++ htmlEscaper (f.File, .plain) ++ tplItemNumber ++
    htmlEscaper (f.Number, .plain) ++ tplItemMethod ++ htmlEscaper (f.Method, .plain) ++
    tplItemEnd

/-- Sample frames of a captured stack. -/
def sampleFrames : List Frame :=
  [{ Number := "12", File := "/app/main.go", Method := "main.handler" },
   { Number := "40", File := "/app/<gen>.go", Method := "main.serve" }]

/-! ## Stack capture -/

theorem appendFrame_eq (rt : Runtime) (frames : List Frame) (pc : Nat) :
    appendFrame rt frames pc = frames ++ (frameAt rt pc).toList := by
  unfold appendFrame frameAt
  cases h : rt.FuncForPC pc <;> simp

theorem foldl_appendFrame (rt : Runtime) (pcs : List Nat) (acc : List Frame) :
    pcs.foldl (appendFrame rt) acc = acc ++ pcs.filterMap (frameAt rt) := by
  induction pcs generalizing acc with
  | nil => simp
  | cons pc pcs ih =>
    rw [List.foldl_cons, ih, appendFrame_eq]
    cases h : frameAt rt pc <;> simp [List.filterMap_cons, h]

/-- The program counters `generateStack` walks: the slice `stack[:length]`
holds the call stack after the skipped entries, cut at `maxFrames`. -/
theorem callers_take (rt : Runtime) (skip : Int) (pc : List Nat) :
    (rt.Callers skip pc).1.take (rt.Callers skip pc).2
      = (rt.callStack.drop skip.toNat).take pc.length := by
  simp [Runtime.Callers]

theorem generateStack_eq (rt : Runtime) (offset : Int) :
    generateStack rt offset
      = ((rt.callStack.drop (wrapInt (2 + offset)).toNat).take maxFrames).filterMap
          (frameAt rt) := by
  have h := callers_take rt (wrapInt (2 + offset)) (List.replicate maxFrames 0)
  simp only [List.length_replicate] at h
  simp only [generateStack]
  rw [foldl_appendFrame, h]
  simp

theorem generateStack_length_le (rt : Runtime) (offset : Int) :
    (generateStack rt offset).length ≤ maxFrames := by
  rw [generateStack_eq]
  exact (List.length_filterMap_le _ _).trans (List.length_take_le _ _)

theorem NewError_stack (rt : Runtime) (v : GoValue) (hv : ∀ e, v ≠ GoValue.ofError e) :
    (NewError rt v).Stack = generateStack rt 3 := by
  cases v with
  | ofError e => exact absurd rfl (hv e)
  | nil => rfl
  | str s => rfl
  | failure t => rfl
  | other ty f => rfl

/-! ## Text of a stack -/

theorem foldl_append_string (l : List String) (acc : String) :
    l.foldl (fun r s => r ++ s) acc = acc ++ String.join l := by
  induction l generalizing acc with
  | nil => simp [String.join]
  | cons a l ih =>
    have h1 := ih (acc ++ a)
    have h2 := ih ("" ++ a)
    simp only [String.join, List.foldl_cons] at h1 h2 ⊢
    rw [h1, h2, String.empty_append, String.append_assoc]

theorem join_cons (a : String) (l : List String) :
    String.join (a :: l) = a ++ String.join l := by
  have h := foldl_append_string (a :: l) ""
  simp only [List.foldl_cons, String.empty_append] at h
  rw [foldl_append_string] at h
  exact h.symm

theorem join_append (l₁ l₂ : List String) :
    String.join (l₁ ++ l₂) = String.join l₁ ++ String.join l₂ := by
  induction l₁ with
  | nil => simp [String.join]
  | cons a l ih => rw [List.cons_append, join_cons, join_cons, ih, String.append_assoc]

theorem foldl_fprintFrame (fs : List Frame) (buf : String) :
    fs.foldl fprintFrame buf = buf ++ String.join (fs.map frameText) := by
  induction fs generalizing buf with
  | nil => simp [String.join]
  | cons f fs ih =>
    rw [List.foldl_cons, ih, List.map_cons, join_cons]
    simp [fprintFrame, frameText, String.append_assoc]

/-! ## Claims on `NewError`, `generateStack` and the accessors -/

/-- C1: wrapping is idempotent.  `NewError` returns a value that is already an
`Error` unchanged, with its `err`, `Message`, `Class` and `Stack` (so no stack
is captured, whatever the runtime state), and for every input `x`,
`NewError(NewError(x))` equals `NewError(x)`. -/
theorem NewError_idempotent (rt rt2 : Runtime) (e : Error) (x : GoValue) :
    NewError rt (GoValue.ofError e) = e ∧
    (NewError rt (GoValue.ofError e)).err = e.err ∧
    (NewError rt (GoValue.ofError e)).Message = e.Message ∧
    (NewError rt (GoValue.ofError e)).Class = e.Class ∧
    (NewError rt (GoValue.ofError e)).Stack = e.Stack ∧
    NewError rt2 (GoValue.ofError (NewError rt x)) = NewError rt x :=
  ⟨rfl, rfl, rfl, rfl, rfl, rfl⟩

/-- C4: `generateStack` returns at most `maxFrames` = 20 frames for every skip
offset and every call stack, so the `Stack` of an `Error` that `NewError`
builds from a value that is not an `Error` has at most 20 frames.  A deeper
stack is cut, not refused: the result is the frames of the first 20 program
counters after the skipped ones (the skip `2 + offset` computed as a Go
`int`), and it has exactly 20 frames when that many are there and all
resolve. -/
theorem generateStack_bounded (rt : Runtime) (offset : Int) (v : GoValue)
    (hv : ∀ e, v ≠ GoValue.ofError e) :
    (generateStack rt offset).length ≤ maxFrames ∧ maxFrames = 20 ∧
    (NewError rt v).Stack.length ≤ 20 ∧
    generateStack rt offset
      = ((rt.callStack.drop (wrapInt (2 + offset)).toNat).take 20).filterMap (frameAt rt) ∧
    ((∀ pc, (rt.FuncForPC pc).isSome = true) →
      20 ≤ (rt.callStack.drop (wrapInt (2 + offset)).toNat).length →
      (generateStack rt offset).length = 20) := by
  refine ⟨generateStack_length_le rt offset, rfl, ?_, generateStack_eq rt offset, ?_⟩
  · rw [NewError_stack rt v hv]
    exact generateStack_length_le rt 3
  · intro hres hdeep
    rw [generateStack_eq]
    have hall : ∀ l : List Nat, (l.filterMap (frameAt rt)).length = l.length := by
      intro l
      induction l with
      | nil => rfl
      | cons pc l ih =>
        have hpc := hres pc
        cases hf : rt.FuncForPC pc with
        | none => rw [hf] at hpc; cases hpc
        | some f => simp [List.filterMap_cons, frameAt, hf, ih]
    rw [hall, List.length_take]
    exact Nat.min_eq_left hdeep

/-- Witness for C4: a plain string wrapped on a call stack thirty frames
deep yields exactly 20 frames. -/
theorem generateStack_bounded_witness :
    (∀ e, GoValue.str "disk full" ≠ GoValue.ofError e) ∧
    (generateStack sampleRuntime 3).length ≤ maxFrames ∧
    (NewError sampleRuntime (GoValue.str "disk full")).Stack.length ≤ 20 ∧
    (generateStack sampleRuntime 3).length = 20 :=
  have hv : ∀ e, GoValue.str "disk full" ≠ GoValue.ofError e :=
    fun _ h => GoValue.noConfusion h
  have h := generateStack_bounded sampleRuntime 3 (GoValue.str "disk full") hv
  ⟨hv, h.1, h.2.2.1, h.2.2.2.2 (fun _ => rfl) (by decide)⟩

/-- C5: for a value `v` that is not already an `Error`, `NewError(v).Message`
is `v`'s own message when `v` implements `error`, and the `%v` text of `v`
otherwise; the accessor `Error()` returns exactly `Message`, so for a plain
string `s`, `NewError(s).Error()` is `s`. -/
theorem NewError_message (rt : Runtime) (v : GoValue)
    (hv : ∀ e, v ≠ GoValue.ofError e) :
    (∀ t, v = GoValue.failure t → (NewError rt v).Message = t.message) ∧
    ((∀ t, v ≠ GoValue.failure t) → (NewError rt v).Message = v.formatV) ∧
    (∀ e : Error, e.Error = e.Message) ∧
    (∀ s, v = GoValue.str s → (NewError rt v).Error = s) := by
  refine ⟨?_, ?_, fun _ => rfl, ?_⟩
  · intro t ht
    subst ht
    rfl
  · intro hne
    cases v with
    | ofError e => exact absurd rfl (hv e)
    | failure t => exact absurd rfl (hne t)
    | nil => rfl
    | str s => rfl
    | other ty f => rfl
  · intro s hs
    subst hs
    rfl

/-- Witness for C5: the plain string `"disk full"` and a structured failure
with message `"EOF"`. -/
theorem NewError_message_witness :
    (∀ e, GoValue.str "disk full" ≠ GoValue.ofError e) ∧
    (NewError sampleRuntime (GoValue.str "disk full")).Message = "disk full" ∧
    (NewError sampleRuntime (GoValue.str "disk full")).Error = "disk full" ∧
    (NewError sampleRuntime (GoValue.failure ⟨"*errors.errorString", "EOF"⟩)).Message = "EOF" :=
  have hv : ∀ e, GoValue.str "disk full" ≠ GoValue.ofError e :=
    fun _ h => GoValue.noConfusion h
  have h := NewError_message sampleRuntime (GoValue.str "disk full") hv
  ⟨hv, h.2.1 (fun _ h => GoValue.noConfusion h), h.2.2.2 "disk full" rfl,
    (NewError_message sampleRuntime (GoValue.failure ⟨"*errors.errorString", "EOF"⟩)
      (fun _ h => GoValue.noConfusion h)).1 _ rfl⟩

/-- C6, as stated, fails: for the plain string `"disk full"`, whose runtime
type is `string`, `NewError` sets `Class` to `*errors.errorString`, the type
of the error value `fmt.Errorf` made from it. -/
theorem NewError_class_counterexample :
    (GoValue.str "disk full").typeString = some "string" ∧
    (NewError sampleRuntime (GoValue.str "disk full")).Class = "*errors.errorString" ∧
    some (NewError sampleRuntime (GoValue.str "disk full")).Class
      ≠ (GoValue.str "disk full").typeString := by
  refine ⟨rfl, rfl, ?_⟩
  decide

/-- C6, amended: for a value `v` that is not already an `Error`,
`NewError(v).Class` names the runtime type of the error value stored in the
record's `err`: that is `v`'s own type when `v` implements `error`, and
`*errors.errorString`, the type of the error `fmt.Errorf` creates, for every
other value. -/
theorem NewError_class (rt : Runtime) (v : GoValue)
    (hv : ∀ e, v ≠ GoValue.ofError e) :
    some (NewError rt v).Class = (NewError rt v).err.typeString ∧
    (∀ t, v = GoValue.failure t →
      (NewError rt v).err = v ∧ some (NewError rt v).Class = v.typeString) ∧
    ((∀ t, v ≠ GoValue.failure t) →
      (NewError rt v).err = GoValue.failure (fmtErrorfV v) ∧
      (NewError rt v).Class = "*errors.errorString") := by
  cases v with
  | ofError e => exact absurd rfl (hv e)
  | failure t =>
    refine ⟨rfl, fun _ _ => ⟨rfl, rfl⟩, fun hne => absurd rfl (hne t)⟩
  | nil => exact ⟨rfl, fun t ht => GoValue.noConfusion ht, fun _ => ⟨rfl, rfl⟩⟩
  | str s => exact ⟨rfl, fun t ht => GoValue.noConfusion ht, fun _ => ⟨rfl, rfl⟩⟩
  | other ty f => exact ⟨rfl, fun t ht => GoValue.noConfusion ht, fun _ => ⟨rfl, rfl⟩⟩

/-- Witness for the amended C6: a structured failure of type `*os.PathError`
keeps its type as `Class`, the integer 42 gets `*errors.errorString`. -/
theorem NewError_class_witness :
    (∀ e, GoValue.failure ⟨"*os.PathError", "open x: no such file"⟩ ≠ GoValue.ofError e) ∧
    (NewError sampleRuntime (GoValue.failure ⟨"*os.PathError", "open x: no such file"⟩)).Class
      = "*os.PathError" ∧
    (NewError sampleRuntime (GoValue.other "int" "42")).Class = "*errors.errorString" :=
  have hv : ∀ e, GoValue.failure ⟨"*os.PathError", "open x: no such file"⟩ ≠ GoValue.ofError e :=
    fun _ h => GoValue.noConfusion h
  ⟨hv,
    Option.some.inj ((NewError_class sampleRuntime
      (GoValue.failure ⟨"*os.PathError", "open x: no such file"⟩) hv).2.1 _ rfl).2,
    ((NewError_class sampleRuntime (GoValue.other "int" "42")
      (fun _ h => GoValue.noConfusion h)).2.2 (fun _ h => GoValue.noConfusion h)).2⟩

/-- C9: `StackTraceString` is the concatenation, in the order of `e.Stack`, of
the text `"<File>: <Number>\n\t<Method>\n"` of each frame; it is empty for an
empty stack, and the text of a stack `s1 ++ s2` is the text of `s1` followed
by the text of `s2`. -/
theorem StackTraceString_eq (e : Error) (err : GoValue) (m c : String)
    (s1 s2 : List Frame) :
    e.StackTraceString = String.join (e.Stack.map frameText) ∧
    (∀ f : Frame, frameText f = f.File ++ ": " ++ f.Number ++ "\n\t" ++ f.Method ++ "\n") ∧
    (Error.mk err m c []).StackTraceString = "" ∧
    (Error.mk err m c (s1 ++ s2)).StackTraceString
      = (Error.mk err m c s1).StackTraceString ++ (Error.mk err m c s2).StackTraceString := by
  have key : ∀ x : Error, x.StackTraceString = String.join (x.Stack.map frameText) := by
    intro x
    rw [Error.StackTraceString, foldl_fprintFrame, String.empty_append]
  refine ⟨key e, fun _ => rfl, rfl, ?_⟩
  rw [key, key, key]
  simp only [Error.Stack, List.map_append, join_append]

/-! ## Runs of `defaultErrorHandler` -/

theorem handler_alloc (host : Host) (tmpl : Template) (ctx : Context)
    (m : String → Option RenderValue) (rest : List RenderData) :
    defaultErrorHandler host tmpl ctx (RenderData.alloc m :: rest)
      = .ok (renderAndSend host tmpl ctx (.alloc (filledEntries host ctx m))) := by
  have hfun : ∀ f g : String → Option RenderValue, f = g →
      (Except.ok (renderAndSend host tmpl ctx (.alloc f)) : Except String HandlerRun)
        = .ok (renderAndSend host tmpl ctx (.alloc g)) := by
    intro f g h
    rw [h]
  cases h1 : m "Code" <;> cases h2 : m "Title" <;> cases h3 : m "Message" <;>
    (simp only [defaultErrorHandler, RenderData.get, RenderData.set, h1, h2, h3, bind,
        Except.bind, pure, Except.pure, Option.isSome, ite_true, ite_false,
        String.reduceEq, Bool.false_eq_true]
     apply hfun
     funext key
     simp only [filledEntries, h1, h2, h3, Option.getD]
     by_cases k1 : key = "HTTPRequest" <;> by_cases k2 : key = "Code" <;>
       by_cases k3 : key = "Title" <;> by_cases k4 : key = "Message" <;>
       simp_all)

theorem handler_nodata (host : Host) (tmpl : Template) (ctx : Context) :
    defaultErrorHandler host tmpl ctx []
      = .ok (renderAndSend host tmpl ctx (.alloc (filledEntries host ctx fun _ => none))) := by
  have hfun : ∀ f g : String → Option RenderValue, f = g →
      (Except.ok (renderAndSend host tmpl ctx (.alloc f)) : Except String HandlerRun)
        = .ok (renderAndSend host tmpl ctx (.alloc g)) := by
    intro f g h
    rw [h]
  simp only [defaultErrorHandler, RenderData.make, RenderData.get, RenderData.set, bind,
    Except.bind, pure, Except.pure, Option.isSome, ite_true, ite_false, String.reduceEq,
    Bool.false_eq_true]
  apply hfun
  funext key
  simp only [filledEntries, Option.getD]
  by_cases k1 : key = "HTTPRequest" <;> by_cases k2 : key = "Code" <;>
    by_cases k3 : key = "Title" <;> by_cases k4 : key = "Message" <;>
    simp_all

theorem handler_nil (host : Host) (tmpl : Template) (ctx : Context)
    (rest : List RenderData) :
    defaultErrorHandler host tmpl ctx (RenderData.nil :: rest)
      = .error "panic: assignment to entry in nil map" := rfl

/-- A call with no data, or with explicit data that is not the nil map,
returns, and its render data are allocated. -/
theorem handler_returns (host : Host) (tmpl : Template) (ctx : Context)
    (data : List RenderData) (hd : data.head? ≠ some RenderData.nil) :
    ∃ m, defaultErrorHandler host tmpl ctx data
      = .ok (renderAndSend host tmpl ctx (.alloc (filledEntries host ctx m))) := by
  cases data with
  | nil => exact ⟨_, handler_nodata host tmpl ctx⟩
  | cons d rest =>
    cases d with
    | nil => exact absurd rfl hd
    | alloc m => exact ⟨m, handler_alloc host tmpl ctx m rest⟩

/-- A call that returns left the render data of its first argument, filled,
or those of no data. -/
theorem handler_run_eq (host : Host) (tmpl : Template) (ctx : Context)
    (data : List RenderData) (run : HandlerRun)
    (hrun : defaultErrorHandler host tmpl ctx data = .ok run) :
    ∃ m, run = renderAndSend host tmpl ctx (.alloc (filledEntries host ctx m)) ∧
      ∀ d rest, data = d :: rest → d = RenderData.alloc m := by
  cases data with
  | nil =>
    rw [handler_nodata] at hrun
    exact ⟨_, (Except.ok.inj hrun).symm, fun _ _ h => List.noConfusion h⟩
  | cons d rest =>
    cases d with
    | nil => rw [handler_nil] at hrun; cases hrun
    | alloc m =>
      rw [handler_alloc] at hrun
      refine ⟨m, (Except.ok.inj hrun).symm, ?_⟩
      intro d rest h
      cases h
      rfl

theorem Send_isSent (ctx : Context) (content : String) :
    (ctx.Send content).IsSent = true := by
  unfold Context.Send
  cases h : ctx.IsSent <;> simp [h]

theorem parse_hasTree (t : Template) (text : String)
    (ht : t.escaped = true → t.hasTree = true) :
    (t.Parse text).1.hasTree = true := by
  unfold Template.Parse
  cases h : t.escaped
  · simp
  · simpa using ht h

theorem execute_hasTree (host : Host) (t : Template) (rd : RenderData)
    (ht : t.hasTree = true) :
    (t.Execute host "" rd).2.1 = (executeErrorTemplate host "" rd).1 ∧
    (t.Execute host "" rd).1.hasTree = true := by
  simp [Template.Execute, ht]

/-! ## Claims on the render data of `defaultErrorHandler` -/

/-- C3: with no explicit data, the call returns and the render data has
`Code` = the status code and `Title` and `Message` = the standard reason
phrase of the status code; for 404 that is `Code=404`, `Title="Not Found"`,
`Message="Not Found"`. -/
theorem defaultErrorHandler_no_data (host : Host) (tmpl : Template) (ctx : Context) :
    (∃ run, defaultErrorHandler host tmpl ctx [] = .ok run ∧
      run.renderData.get "Code" = some (RenderValue.int ctx.statusCode) ∧
      run.renderData.get "Title" = some (RenderValue.str (StatusText ctx.statusCode)) ∧
      run.renderData.get "Message" = some (RenderValue.str (StatusText ctx.statusCode))) ∧
    (∃ run, defaultErrorHandler host tmpl { ctx with statusCode := 404 } [] = .ok run ∧
      run.renderData.get "Code" = some (RenderValue.int 404) ∧
      run.renderData.get "Title" = some (RenderValue.str "Not Found") ∧
      run.renderData.get "Message" = some (RenderValue.str "Not Found")) :=
  ⟨⟨_, handler_nodata host tmpl ctx, rfl, rfl, rfl⟩,
   ⟨_, handler_nodata host tmpl _, rfl, rfl, rfl⟩⟩

/-- C2, as stated, fails: the nil map is a data mapping a caller can supply,
it lacks `Code`, and the handler panics on the assignment that would fill
`Code` in, so no render data is built. -/
theorem defaultErrorHandler_backfill_counterexample :
    RenderData.nil.get "Code" = none ∧
    defaultErrorHandler sampleHost Template.New (sampleContext 500) [RenderData.nil]
      = Except.error "panic: assignment to entry in nil map" :=
  ⟨rfl, rfl⟩

/-- C2, amended: with explicit data that is an allocated (non-nil) map of
entries `m`, the call returns and the render data keeps the value `m` has
under each of the keys `Code`, `Title` and `Message`, and sets each of those
keys that `m` lacks to the status code (for `Code`) or to its standard reason
phrase (for `Title` and `Message`); with the data `{Message: "custom"}` and
status 500 it has `Code=500`, `Title="Internal Server Error"`,
`Message="custom"`. -/
theorem defaultErrorHandler_backfill (host : Host) (tmpl : Template) (ctx : Context)
    (m : String → Option RenderValue) (rest : List RenderData) :
    (∃ run, defaultErrorHandler host tmpl ctx (RenderData.alloc m :: rest) = .ok run ∧
      run.renderData.get "Code" = some ((m "Code").getD (RenderValue.int ctx.statusCode)) ∧
      run.renderData.get "Title"
        = some ((m "Title").getD (RenderValue.str (StatusText ctx.statusCode))) ∧
      run.renderData.get "Message"
        = some ((m "Message").getD (RenderValue.str (StatusText ctx.statusCode)))) ∧
    (∃ run, defaultErrorHandler host tmpl { ctx with statusCode := 500 }
        [RenderData.ofList [("Message", RenderValue.str "custom")]] = .ok run ∧
      run.renderData.get "Code" = some (RenderValue.int 500) ∧
      run.renderData.get "Title" = some (RenderValue.str "Internal Server Error") ∧
      run.renderData.get "Message" = some (RenderValue.str "custom")) :=
  ⟨⟨_, handler_alloc host tmpl ctx m rest, rfl, rfl, rfl⟩,
   ⟨_, handler_alloc host tmpl _ _ [], rfl, rfl, rfl⟩⟩

/-! ## Claims on rendering and sending -/

/-- C8, as stated, fails: with the nil map as explicit data the handler
panics on the assignment to `Code`, before `HTTPRequest` is set and before
anything is rendered or sent, although the request dump itself succeeds. -/
theorem defaultErrorHandler_request_dump_counterexample :
    (sampleHost.DumpRequest (sampleContext 404).Request true).2 = none ∧
    RenderData.nil.get "HTTPRequest" = none ∧
    defaultErrorHandler sampleHost Template.New (sampleContext 404)
        [RenderData.nil, RenderData.make]
      = Except.error "panic: assignment to entry in nil map" :=
  ⟨rfl, rfl, rfl⟩

/-- C8, amended: for every context and every data argument that is none or
starts with an allocated (non-nil) map, which may itself have an
`HTTPRequest` key, the call returns and the render data holds the key
`HTTPRequest` bound to the text `httputil.DumpRequest` returned for the
inbound request; when the dump fails the key is still set, to the text
returned with the error, and the call goes on to render the page from that
data and to hand it to `ctx.Send`.  `tmpl` is any state of the package
variable in which an executed template holds a tree, as in the initial state
and after every run. -/
theorem defaultErrorHandler_request_dump (host : Host) (tmpl : Template) (ctx : Context)
    (data : List RenderData) (hd : data.head? ≠ some RenderData.nil)
    (ht : tmpl.escaped = true → tmpl.hasTree = true) :
    ∃ run, defaultErrorHandler host tmpl ctx data = .ok run ∧
      run.renderData.get "HTTPRequest"
        = some (RenderValue.str (host.DumpRequest ctx.Request true).1) ∧
      run.buf = (executeErrorTemplate host "" run.renderData).1 ∧
      run.ctx = ctx.Send run.buf ∧
      run.ctx.IsSent = true ∧
      (run.tmpl.escaped = true → run.tmpl.hasTree = true) := by
  obtain ⟨m, hm⟩ := handler_returns host tmpl ctx data hd
  have hp := parse_hasTree tmpl errorTemplate ht
  have he := execute_hasTree host (tmpl.Parse errorTemplate).1
    (.alloc (filledEntries host ctx m)) hp
  exact ⟨_, hm, rfl, he.1, rfl, Send_isSent _ _, fun _ => he.2⟩

/-- Witness for the amended C8: the dump fails and the caller's data already
has an `HTTPRequest` key; the key is bound to the empty dump and the page is
sent. -/
theorem defaultErrorHandler_request_dump_witness :
    [RenderData.ofList [("HTTPRequest", RenderValue.str "mine")]].head?
      ≠ some RenderData.nil ∧
    (Template.New.escaped = true → Template.New.hasTree = true) ∧
    (failingDumpHost.DumpRequest (sampleContext 500).Request true).2 ≠ none ∧
    ∃ run, defaultErrorHandler failingDumpHost Template.New (sampleContext 500)
        [RenderData.ofList [("HTTPRequest", RenderValue.str "mine")]] = .ok run ∧
      run.renderData.get "HTTPRequest" = some (RenderValue.str "") ∧
      run.buf = (executeErrorTemplate failingDumpHost "" run.renderData).1 ∧
      run.ctx.IsSent = true :=
  have hd : [RenderData.ofList [("HTTPRequest", RenderValue.str "mine")]].head?
      ≠ some RenderData.nil := fun h => RenderData.noConfusion (Option.some.inj h)
  have ht : Template.New.escaped = true → Template.New.hasTree = true := by decide
  have h := defaultErrorHandler_request_dump failingDumpHost Template.New (sampleContext 500)
    [RenderData.ofList [("HTTPRequest", RenderValue.str "mine")]] hd ht
  ⟨hd, ht, by decide, h.elim fun run hr => ⟨run, hr.1, hr.2.1, hr.2.2.1, hr.2.2.2.2.1⟩⟩

/-- C7, as stated, fails.  On a run after the first, `tmpl.Parse` is refused,
and with a `StackTrace` that cannot be ranged over `tmpl.Execute` fails part
way; in both runs the handler goes on and the response is sent, holding the
buffer as the failed call left it (in the second run a page that has the
opening of the backtrace section and lacks the page foot). -/
theorem defaultErrorHandler_template_failure_counterexample :
    (∃ run, defaultErrorHandler sampleHost tmplAfterFirstRun (sampleContext 404) [] = .ok run ∧
      run.parseErr = some "html/template: cannot Parse after Execute" ∧
      run.ctx.IsSent = true ∧
      run.ctx.Response = run.buf) ∧
    (∃ run, defaultErrorHandler sampleHost Template.New (sampleContext 500) [badTraceData]
        = .ok run ∧
      run.executeErr ≠ none ∧
      run.ctx.IsSent = true ∧
      run.ctx.Response = run.buf ∧
      tplTraceOpen.toList <:+: run.buf.toList ∧
      ¬ tplFoot.toList <:+ run.buf.toList) :=
  ⟨⟨_, rfl, by decide, by decide, by decide!⟩,
   ⟨_, rfl, by decide, by decide, by decide!, by decide!, by decide!⟩⟩

/-- C7, amended: when parsing or executing the diagnostic template fails in a
call of `defaultErrorHandler`, the failure is discarded and the call goes on:
the buffer, holding what `tmpl.Execute` wrote before it stopped, is handed to
`ctx.Send`, and nothing is reported to the caller.  After a refused parse the
template still holds its tree, and the buffer is the page rendered from it.
`run` is what the call leaves behind; there is one for every data argument
but one that starts with the nil map, on which the call panics before it
reaches the template. -/
theorem defaultErrorHandler_discards_template_failure (host : Host) (tmpl : Template)
    (ctx : Context) (data : List RenderData) (run : HandlerRun)
    (hrun : defaultErrorHandler host tmpl ctx data = .ok run)
    (_hfail : run.parseErr ≠ none ∨ run.executeErr ≠ none) :
    run.buf = ((tmpl.Parse errorTemplate).1.Execute host "" run.renderData).2.1 ∧
    run.ctx = ctx.Send run.buf ∧
    run.ctx.IsSent = true ∧
    (tmpl.hasTree = true → run.buf = (executeErrorTemplate host "" run.renderData).1) := by
  obtain ⟨m, hm, _⟩ := handler_run_eq host tmpl ctx data run hrun
  subst hm
  refine ⟨rfl, rfl, Send_isSent _ _, ?_⟩
  intro hT
  exact (execute_hasTree host (tmpl.Parse errorTemplate).1 _
    (parse_hasTree tmpl errorTemplate (fun _ => hT))).1

/-- Witness for the amended C7: a run after the first, in which the parse is
refused. -/
theorem defaultErrorHandler_discards_template_failure_witness :
    ∃ run, defaultErrorHandler sampleHost tmplAfterFirstRun (sampleContext 404) [] = .ok run ∧
      (run.parseErr ≠ none ∨ run.executeErr ≠ none) ∧
      run.ctx = (sampleContext 404).Send run.buf ∧
      run.ctx.IsSent = true ∧
      run.buf = (executeErrorTemplate sampleHost "" run.renderData).1 :=
  have hrun := handler_nodata sampleHost tmplAfterFirstRun (sampleContext 404)
  have hfail : (renderAndSend sampleHost tmplAfterFirstRun (sampleContext 404)
        (.alloc (filledEntries sampleHost (sampleContext 404) fun _ => none))).parseErr ≠ none ∨
      (renderAndSend sampleHost tmplAfterFirstRun (sampleContext 404)
        (.alloc (filledEntries sampleHost (sampleContext 404) fun _ => none))).executeErr
          ≠ none := Or.inl (by decide)
  have h := defaultErrorHandler_discards_template_failure sampleHost tmplAfterFirstRun
    (sampleContext 404) [] _ hrun hfail
  ⟨_, hrun, hfail, h.2.1, h.2.2.1, h.2.2.2 (by decide)⟩

/-! ## Absence of a text from a page -/

theorem clean_append (n a b : List Char) (ha : Clean n a) (hb : Clean n b) :
    Clean n (a ++ b) := by
  have key : ∀ p s c : List Char, p <+: n → s ++ p = a ++ c → p ≠ [] → p <:+ c := by
    intro p s c hp hs hne
    rcases List.append_eq_append_iff.mp hs with ⟨a1, h1, h2⟩ | ⟨c1, h1, h2⟩
    · -- `a = s ++ a1`, `p = a1 ++ b`
      by_cases ha1 : a1 = []
      · subst ha1
        simp only [List.nil_append] at h2
        exact h2 ▸ List.suffix_refl _
      · exfalso
        refine ha.2 a1 ((List.mem_inits _ _).mpr ?_) ha1 ⟨s, h1.symm⟩
        exact (h2 ▸ List.prefix_append a1 c : a1 <+: p).trans hp
    · exact ⟨c1, h2.symm⟩
  constructor
  · rintro ⟨s, t, hst⟩
    rcases List.append_eq_append_iff.mp hst with ⟨a1, h1, _⟩ | ⟨c1, h1, h2⟩
    · exact ha.1 ⟨s, a1, h1.symm⟩
    · by_cases hn : n = []
      · subst hn
        exact hb.1 ⟨[], b, by simp⟩
      · obtain ⟨u, hu⟩ := key n s c1 (List.prefix_refl n) h1 hn
        exact hb.1 ⟨u, t, by rw [hu, h2]⟩
  · intro p hp hne hsuf
    obtain ⟨s, hs⟩ := hsuf
    exact hb.2 p hp hne (key p s b ((List.mem_inits _ _).mp hp) hs hne)

theorem clean_of_not_mem (c : Char) (r e : List Char) (h : c ∉ e) :
    Clean (c :: r) e := by
  constructor
  · intro hin
    exact h (hin.subset (List.mem_cons_self c r))
  · intro p hp hne hsuf
    have hpre := (List.mem_inits _ _).mp hp
    cases p with
    | nil => exact hne rfl
    | cons x p =>
      have hx : x = c := by
        obtain ⟨t, ht⟩ := hpre
        simp only [List.cons_append, List.cons.injEq] at ht
        exact ht.1
      exact h (hsuf.subset (hx ▸ List.mem_cons_self x p))

theorem htmlReplacement_no_lt (c : Char) : Char.ofNat 60 ∉ htmlReplacement c := by
  unfold htmlReplacement
  split_ifs with h0 h1 h2 h3 h4 h5 h6
  · decide
  · decide
  · decide
  · decide
  · decide
  · decide
  · decide
  · simp only [List.mem_singleton]
    exact fun h => h5 h.symm

theorem htmlNormReplacement_no_lt (c : Char) : Char.ofNat 60 ∉ htmlNormReplacement c := by
  unfold htmlNormReplacement
  split_ifs with h0 h1 h2 h3 h4 h5
  · decide
  · decide
  · decide
  · decide
  · decide
  · decide
  · simp only [List.mem_singleton]
    exact fun h => h4 h.symm

theorem htmlReplacer_no_lt (table : Char → List Char)
    (h : ∀ c, Char.ofNat 60 ∉ table c) (s : String) :
    Char.ofNat 60 ∉ (htmlReplacer table s).toList := by
  unfold htmlReplacer
  simp only [String.toList, List.mem_flatMap, not_exists, not_and]
  intro c _
  exact h c

theorem rcdataEscaper_no_lt (arg : String × ContentType) :
    Char.ofNat 60 ∉ (rcdataEscaper arg).toList := by
  unfold rcdataEscaper
  split_ifs
  · exact htmlReplacer_no_lt _ htmlNormReplacement_no_lt _
  · exact htmlReplacer_no_lt _ htmlReplacement_no_lt _

theorem stringify_plain (host : Host) (v : Option RenderValue)
    (hv : typedHTML v = false) : (stringify host v).2 = ContentType.plain := by
  cases v with
  | none => rfl
  | some x =>
    cases x with
    | html s => cases hv
    | int n => rfl
    | str s => rfl
    | frames fs => rfl

theorem htmlEscaper_no_lt (host : Host) (v : Option RenderValue)
    (hv : typedHTML v = false) :
    Char.ofNat 60 ∉ (htmlEscaper (stringify host v)).toList := by
  unfold htmlEscaper
  rw [stringify_plain host v hv]
  simp only [reduceCtorEq, ite_false]
  exact htmlReplacer_no_lt _ htmlReplacement_no_lt _

/-! ## The backtrace section of the page -/

theorem foldl_executeRangeBody (fs : List Frame) (wr : String) :
    fs.foldl executeRangeBody wr = wr ++ String.join (fs.map frameItem) := by
  induction fs generalizing wr with
  | nil => simp [String.join]
  | cons f fs ih =>
    rw [List.foldl_cons, ih, List.map_cons, join_cons]
    simp [executeRangeBody, frameItem, String.append_assoc]

theorem execute_without_trace (host : Host) (d : RenderData)
    (h : isTrue (d.get "StackTrace") = false) :
    executeErrorTemplate host "" d = (pageStart host d ++ tplFoot, none) := by
  simp [executeErrorTemplate, h, pageStart, String.append_assoc]

theorem execute_with_trace (host : Host) (d : RenderData) (fs : List Frame)
    (hne : fs ≠ []) (h : d.get "StackTrace" = some (RenderValue.frames fs)) :
    executeErrorTemplate host "" d
      = (pageStart host d ++ tplTraceOpen ++ String.join (fs.map frameItem)
          ++ tplTraceClose ++ tplFoot, none) := by
  have ht : isTrue (some (RenderValue.frames fs)) = true := by
    cases fs with
    | nil => exact absurd rfl hne
    | cons f fs => rfl
  simp [executeErrorTemplate, h, ht, pageStart, foldl_executeRangeBody, String.append_assoc]

theorem clean_string_append (n : List Char) (s t : String) (hs : Clean n s.toList)
    (ht : Clean n t.toList) : Clean n (s ++ t).toList :=
  clean_append n s.data t.data hs ht

/-- A page without the backtrace section, none of whose values in element
text is a `template.HTML`, is clean for a text that starts with `<`, when
each text node used is. -/
theorem page_clean (r : List Char) (host : Host) (d : RenderData)
    (hplain : ∀ k ∈ ["Code", "Title", "Message", "HTTPRequest"], typedHTML (d.get k) = false)
    (h0 : Clean (Char.ofNat 60 :: r) tplHead.toList)
    (h1 : Clean (Char.ofNat 60 :: r) " ".toList)
    (h2 : Clean (Char.ofNat 60 :: r) tplStyle.toList)
    (h3 : Clean (Char.ofNat 60 :: r) tplBody.toList)
    (h4 : Clean (Char.ofNat 60 :: r) tplRequest.toList)
    (h5 : Clean (Char.ofNat 60 :: r) tplAfterRequest.toList)
    (h6 : Clean (Char.ofNat 60 :: r) tplFoot.toList) :
    Clean (Char.ofNat 60 :: r) (pageStart host d ++ tplFoot).toList := by
  have t := fun arg => clean_of_not_mem (Char.ofNat 60) r _ (rcdataEscaper_no_lt arg)
  have e := fun k hk =>
    clean_of_not_mem (Char.ofNat 60) r _ (htmlEscaper_no_lt host (d.get k) (hplain k hk))
  unfold pageStart
  have c1 := clean_string_append _ _ _ h0 (t (stringify host (d.get "Code")))
  have c2 := clean_string_append _ _ _ c1 h1
  have c3 := clean_string_append _ _ _ c2 (t (stringify host (d.get "Title")))
  have c4 := clean_string_append _ _ _ c3 h2
  have c5 := clean_string_append _ _ _ c4 (e "Code" (by decide))
  have c6 := clean_string_append _ _ _ c5 h1
  have c7 := clean_string_append _ _ _ c6 (e "Title" (by decide))
  have c8 := clean_string_append _ _ _ c7 h3
  have c9 := clean_string_append _ _ _ c8 (e "Message" (by decide))
  have c10 := clean_string_append _ _ _ c9 h4
  have c11 := clean_string_append _ _ _ c10 (e "HTTPRequest" (by decide))
  have c12 := clean_string_append _ _ _ c11 h5
  exact clean_string_append _ _ _ c12 h6

theorem page_no_heading (host : Host) (d : RenderData)
    (hplain : ∀ k ∈ ["Code", "Title", "Message", "HTTPRequest"], typedHTML (d.get k) = false) :
    ¬ "<h2>Traceback</h2>".toList <:+: (pageStart host d ++ tplFoot).toList :=
  (page_clean "h2>Traceback</h2>".toList host d hplain (by decide!) (by decide!) (by decide!)
    (by decide!) (by decide!) (by decide!) (by decide!)).1

theorem page_no_list (host : Host) (d : RenderData)
    (hplain : ∀ k ∈ ["Code", "Title", "Message", "HTTPRequest"], typedHTML (d.get k) = false) :
    ¬ "<ul id=\"backtrace\">".toList <:+: (pageStart host d ++ tplFoot).toList :=
  (page_clean "ul id=\"backtrace\">".toList host d hplain (by decide!) (by decide!) (by decide!)
    (by decide!) (by decide!) (by decide!) (by decide!)).1

theorem isTrue_absent_or_empty (v : Option RenderValue)
    (h : v = none ∨ v = some (RenderValue.frames [])) : isTrue v = false := by
  rcases h with h | h <;> subst h <;> rfl

/-- The values a run leaves under the keys shown in element text are no
`template.HTML` when those of the explicit entries `m` under `Code`, `Title`
and `Message` are none. -/
theorem filled_plain (host : Host) (ctx : Context) (m : String → Option RenderValue)
    (hplain : ∀ k ∈ ["Code", "Title", "Message"], typedHTML (m k) = false) :
    ∀ k ∈ ["Code", "Title", "Message", "HTTPRequest"],
      typedHTML ((RenderData.alloc (filledEntries host ctx m)).get k) = false := by
  have hc := hplain "Code" (by decide)
  have ht := hplain "Title" (by decide)
  have hm := hplain "Message" (by decide)
  intro k hk
  simp only [List.mem_cons, List.mem_singleton, List.not_mem_nil, or_false] at hk
  rcases hk with rfl | rfl | rfl | rfl
  · cases h : m "Code" <;> simp_all [RenderData.get, filledEntries, typedHTML]
  · cases h : m "Title" <;> simp_all [RenderData.get, filledEntries, typedHTML]
  · cases h : m "Message" <;> simp_all [RenderData.get, filledEntries, typedHTML]
  · rfl

theorem run_no_section (host : Host) (tmpl : Template) (ctx : Context)
    (m : String → Option RenderValue) (n : List Char) (hn : n ≠ [])
    (hpage : ¬ n <:+: (pageStart host (.alloc (filledEntries host ctx m)) ++ tplFoot).toList)
    (h : m "StackTrace" = none ∨ m "StackTrace" = some (RenderValue.frames [])) :
    ¬ n <:+: (renderAndSend host tmpl ctx (.alloc (filledEntries host ctx m))).buf.toList := by
  have hs : (RenderData.alloc (filledEntries host ctx m)).get "StackTrace" = m "StackTrace" :=
    rfl
  cases hT : (tmpl.Parse errorTemplate).1.hasTree with
  | true =>
    have he := (execute_hasTree host _ (.alloc (filledEntries host ctx m)) hT).1
    simp only [renderAndSend]
    rw [he, execute_without_trace host _ (isTrue_absent_or_empty _ (hs ▸ h))]
    exact hpage
  | false =>
    simp only [renderAndSend, Template.Execute, hT]
    intro hin
    have hnil : n = [] := by simpa using hin
    exact hn hnil

end Nanoweb
